import Mathlib

/-!
Shallow embedding of the loot-table-to-Java expression compiler
(`main.py` of FabricLootModificationHelper) and proofs about it.

JSON values decoded by `json.loads` are modelled by `Json`.  Python's
numeric tower is modelled as follows: a JSON integer becomes `jint`, a
non-integer JSON number becomes `jfloat` carrying its literal text (the
compiler only ever passes such numbers through `str`), a JSON boolean
becomes `jbool` (Python booleans count as integers and numbers, which the
embedding reproduces), and `null` / Python `None` is `jnull`.

Python exceptions raised while a translator runs (KeyError, TypeError,
AttributeError, IndexError) are modelled with the `Except` monad.  The
general recursion of the mutually recursive translator closures is made
total with an explicit fuel parameter; running out of fuel is a distinct
error value that no theorem ever treats as program behaviour.
-/

inductive Json where
  | jnull
  | jbool (b : Bool)
  | jint (n : Int)
  | jfloat (text : String)
  | jstr (s : String)
  | jarr (elems : List Json)
  | jobj (fields : List (String × Json))

inductive PyErr where
  | keyError (k : String)
  | typeError
  | attributeError
  | indexError
  | outOfFuel
deriving DecidableEq

abbrev PyRes (α : Type) : Type := Except PyErr α

/-- Association-list lookup, first match wins (objects decoded from JSON
have pairwise distinct keys, so this agrees with Python dict lookup). -/
def assoc_find (k : String) : List (String × Json) → Option Json
  | [] => none
  | (k2, v) :: rest => if k2 == k then some v else assoc_find k rest

def Json.lookup (j : Json) (k : String) : Option Json :=
  match j with
  | .jobj kvs => assoc_find k kvs
  | _ => none

def Json.hasKey (j : Json) (k : String) : Bool :=
  (j.lookup k).isSome

/-- Python subscript `obj[k]`: KeyError when the key is absent from a
dict, TypeError when the value is not a dict at all. -/
def Json.getKey (j : Json) (k : String) : PyRes Json :=
  match j with
  | .jobj kvs =>
    match assoc_find k kvs with
    | some v => .ok v
    | none => .error (.keyError k)
  | _ => .error .typeError

/-- Python `obj.get(k)`: `None` when absent; AttributeError when the
receiver is not a dict (ints, lists, strings have no `get`). -/
def Json.pyGet (j : Json) (k : String) : PyRes Json :=
  match j with
  | .jobj kvs => .ok ((assoc_find k kvs).getD .jnull)
  | _ => .error .attributeError

/-- Python `x == "literal"` for a decoded JSON value: only a string can
compare equal to a string literal. -/
def Json.eqStr (j : Json) (s : String) : Bool :=
  match j with
  | .jstr t => t == s
  | _ => false

/-- Python `isinstance(x, int)`; booleans are integers in Python. -/
def Json.pyIsInt (j : Json) : Bool :=
  match j with
  | .jint _ => true
  | .jbool _ => true
  | _ => false

/-- Python `isinstance(x, numbers.Number)`. -/
def Json.pyIsNumber (j : Json) : Bool :=
  match j with
  | .jint _ => true
  | .jfloat _ => true
  | .jbool _ => true
  | _ => false

/-- Python truthiness of a decoded JSON value.  A non-integer number is
falsy exactly when it is a zero; the compiler only ever applies
truthiness to schema-boolean fields, so the float case is inessential. -/
def Json.pyTruthy (j : Json) : Bool :=
  match j with
  | .jnull => false
  | .jbool b => b
  | .jint n => n != 0
  | .jfloat t => !(t == "0.0" || t == "-0.0")
  | .jstr s => s != ""
  | .jarr es => !es.isEmpty
  | .jobj kvs => !kvs.isEmpty

/-- Python `for x in j`: lists yield their elements, dicts their keys,
strings their characters; other values are not iterable. -/
def Json.pyIter (j : Json) : PyRes (List Json) :=
  match j with
  | .jarr es => .ok es
  | .jobj kvs => .ok (kvs.map (fun kv => .jstr kv.1))
  | .jstr s => .ok (s.data.map (fun c => .jstr (String.mk [c])))
  | _ => .error .typeError

def list_has_sub (pat : List Char) : List Char → Bool
  | [] => pat.isPrefixOf ([] : List Char)
  | c :: rest => pat.isPrefixOf (c :: rest) || list_has_sub pat rest

/-- Substring test, Python `pat in s` for strings. -/
def str_contains_sub (s pat : String) : Bool :=
  list_has_sub pat.data s.data

/-- Python `k in j`: key test for dicts, membership for lists, substring
test for strings, TypeError otherwise. -/
def Json.pyContains (j : Json) (k : String) : PyRes Bool :=
  match j with
  | .jobj kvs => .ok (assoc_find k kvs).isSome
  | .jarr es => .ok (es.any (fun e => match e with | .jstr s => s == k | _ => false))
  | .jstr s => .ok (str_contains_sub s k)
  | _ => .error .typeError

def str_join : List String → String
  | [] => ""
  | s :: rest => s ++ str_join rest

def str_join_sep (sep : String) : List String → String
  | [] => ""
  | [s] => s
  | s :: rest => s ++ sep ++ str_join_sep sep rest

/-- Python slice `s[:-n]`. -/
def strDropRight (s : String) (n : Nat) : String :=
  String.mk (s.data.take (s.data.length - n))

/-- `tabs` helper of the source: `"\t" * number_of_tabs`. -/
def tabs (number_of_tabs : Nat) : String :=
  String.mk (List.replicate number_of_tabs '\t')

/-- Python `str.replace("#", "")`: removes every hash character. -/
def remove_hash (s : String) : String :=
  String.mk (s.data.filter (fun c => c != '#'))

/-- Python `str.upper()` (ASCII, which covers every emitted identifier). -/
def py_upper (s : String) : String :=
  String.mk (s.data.map Char.toUpper)

mutual
/-- Python `repr` of a decoded JSON value, as used by `str` on
containers. -/
def pyRepr : Json → String
  | .jnull => "None"
  | .jbool b => if b then "True" else "False"
  | .jint n => toString n
  | .jfloat t => t
  | .jstr s => "\x27" ++ s ++ "\x27"
  | .jarr es => "[" ++ str_join_sep ", " (pyReprList es) ++ "]"
  | .jobj kvs => "\x7b" ++ str_join_sep ", " (pyReprFields kvs) ++ "\x7d"

def pyReprList : List Json → List String
  | [] => []
  | e :: rest => pyRepr e :: pyReprList rest

def pyReprFields : List (String × Json) → List String
  | [] => []
  | (k, v) :: rest => ("\x27" ++ k ++ "\x27: " ++ pyRepr v) :: pyReprFields rest
end

/-- Python `str(x)` for a decoded JSON value. -/
def pyStr (j : Json) : String :=
  match j with
  | .jstr s => s
  | _ => pyRepr j

/-- Python `s + x` where `x` is a decoded JSON value: TypeError unless
`x` is a string. -/
def py_add (s : String) (j : Json) : PyRes String :=
  match j with
  | .jstr t => .ok (s ++ t)
  | _ => .error .typeError

/-- Python `s + r` where `r` is the result of a helper that may have
returned `None` (a fallen-through translator): TypeError on `None`. -/
def concatSome (s : String) : Option String → PyRes String
  | some t => .ok (s ++ t)
  | none => .error .typeError

/-- `double_range` helper (main.py lines 222-234). -/
def double_range (value_object : Json) : PyRes String := do
  if value_object.pyIsNumber then
    pure ("NumberRange.DoubleRange.exactly(" ++ pyStr value_object ++ "F)")
  else do
    let mn ← value_object.getKey "min"
    let mx ← value_object.getKey "max"
    pure ("NumberRange.DoubleRange.between(" ++ pyStr mn ++ "F, " ++ pyStr mx ++ "F)")

/-- `double_range_or_any` helper (main.py lines 237-248). -/
def double_range_or_any (obj : Json) (value_name : String) : PyRes String := do
  if (← obj.pyContains value_name) then
    double_range (← obj.getKey value_name)
  else
    pure "NumberRange.DoubleRange.ANY"

/-- `int_range` helper (main.py lines 251-263). -/
def int_range (value_object : Json) : PyRes String := do
  if value_object.pyIsInt then
    pure ("NumberRange.IntRange.exactly(" ++ pyStr value_object ++ ")")
  else do
    let mn ← value_object.getKey "min"
    let mx ← value_object.getKey "max"
    pure ("NumberRange.IntRange.between(" ++ pyStr mn ++ ", " ++ pyStr mx ++ ")")

/-- `int_range_or_any` helper (main.py lines 266-277). -/
def int_range_or_any (obj : Json) (value_name : String) : PyRes String := do
  if (← obj.pyContains value_name) then
    int_range (← obj.getKey value_name)
  else
    pure "NumberRange.IntRange.ANY"

/-- `enchantment_level_value` helper (main.py lines 35-93).  The source
function falls off its end (returning `None`) on an unmatched shape;
that is `pure none` here.  `fuel` bounds the recursion depth. -/
def enchantment_level_value : Nat → Json → PyRes (Option String)
  | 0, _ => .error .outOfFuel
  | fuel + 1, amount_object => do
    if amount_object.pyIsNumber then
      pure (some ("new EnchantmentLevelBasedValue.Constant(" ++ pyStr amount_object ++ "F)"))
    else if (← amount_object.pyContains "type") then do
      let amount_type ← amount_object.getKey "type"
      if amount_type.eqStr "minecraft:constant" then do
        -- the source concatenates the raw value without `str` here
        let s ← py_add "new EnchantmentLevelBasedValue.Constant(" (← amount_object.getKey "value")
        pure (some (s ++ "F)"))
      else if amount_type.eqStr "minecraft:clamped" then do
        let s ← concatSome "new EnchantmentLevelBasedValue.Clamped("
          (← enchantment_level_value fuel (← amount_object.getKey "value"))
        let mn ← amount_object.getKey "min"
        let mx ← amount_object.getKey "max"
        pure (some (s ++ ", " ++ pyStr mn ++ "F, " ++ pyStr mx ++ "F)"))
      else if amount_type.eqStr "minecraft:fraction" then do
        let s1 ← concatSome "new EnchantmentLevelBasedValue.Fraction("
          (← enchantment_level_value fuel (← amount_object.getKey "numerator"))
        let s2 ← concatSome (s1 ++ ", ")
          (← enchantment_level_value fuel (← amount_object.getKey "denominator"))
        pure (some (s2 ++ ")"))
      else if amount_type.eqStr "minecraft:levels_squared" then do
        let added ← amount_object.getKey "added"
        pure (some ("new EnchantmentLevelBasedValue.LevelsSquared(" ++ pyStr added ++ "F)"))
      else if amount_type.eqStr "minecraft:linear" then do
        let base ← amount_object.getKey "base"
        let per ← amount_object.getKey "per_level_above_first"
        pure (some ("new EnchantmentLevelBasedValue.Linear(" ++ pyStr base ++ "F, " ++
          pyStr per ++ "F)"))
      else if amount_type.eqStr "minecraft:lookup" then do
        let values ← (← amount_object.getKey "values").pyIter
        let r := values.foldl (fun acc v => acc ++ pyStr v ++ "F, ")
          "new EnchantmentLevelBasedValue.Lookup(Arrays.asList("
        let r := strDropRight r 2
        let s ← concatSome (r ++ "), ")
          (← enchantment_level_value fuel (← amount_object.getKey "fallback"))
        pure (some (s ++ ")"))
      else
        pure none
    else
      pure none

/-- `loot_number` helper (main.py lines 96-172).  Falls off its end
(returning `None`) on an unmatched shape. -/
def loot_number : Nat → Json → PyRes (Option String)
  | 0, _ => .error .outOfFuel
  | fuel + 1, number_object => do
    if number_object.pyIsNumber then
      pure (some ("ConstantLootNumberProvider.create(" ++ pyStr number_object ++ "F)"))
    else if (← number_object.pyContains "type") then do
      let roll_type ← number_object.getKey "type"
      if roll_type.eqStr "minecraft:constant" then do
        -- the source concatenates the raw value without `str` here
        let s ← py_add "ConstantLootNumberProvider.create(" (← number_object.getKey "value")
        pure (some (s ++ "F)"))
      else if roll_type.eqStr "minecraft:uniform" then do
        let s1 ← concatSome "new UniformLootNumberProvider("
          (← loot_number fuel (← number_object.getKey "min"))
        let s2 ← concatSome (s1 ++ ", ")
          (← loot_number fuel (← number_object.getKey "max"))
        pure (some (s2 ++ ")"))
      else if roll_type.eqStr "minecraft:binomial" then do
        let s1 ← concatSome "new BinomialLootNumberProvider("
          (← loot_number fuel (← number_object.getKey "n"))
        let s2 ← concatSome (s1 ++ ", ")
          (← loot_number fuel (← number_object.getKey "p"))
        pure (some (s2 ++ ")"))
      else if roll_type.eqStr "minecraft:score" then do
        let result := "ScoreLootNumberProvider.create(LootContext.EntityTarget."
        let target ← number_object.getKey "target"
        let result ←
          match target with
          | .jstr s => pure (result ++ py_upper s)
          | _ => do
            if (← target.getKey "type").eqStr "minecraft:fixed" then do
              let s ← py_add (result ++ "fromString(\"") (← target.getKey "name")
              pure (s ++ "\")")
            else do
              pure (result ++ py_upper (pyStr (← target.getKey "target")))
        let s ← py_add (result ++ ", \"") (← number_object.getKey "score")
        let result := s ++ "\""
        let result ←
          if (← number_object.pyContains "scale") then do
            pure (result ++ ", " ++ pyStr (← number_object.getKey "scale") ++ "F")
          else pure result
        pure (some (result ++ ")"))
      else if roll_type.eqStr "minecraft:enchantment_level" then do
        let s ← concatSome "new EnchantmentLevelLootNumberProvider("
          (← enchantment_level_value fuel (← number_object.getKey "amount"))
        pure (some (s ++ ")"))
      else
        pure none
    else if (← number_object.pyContains "min") then
      if (← number_object.pyContains "max") then do
        let s1 ← concatSome "new UniformLootNumberProvider("
          (← loot_number fuel (← number_object.getKey "min"))
        let s2 ← concatSome (s1 ++ ", ")
          (← loot_number fuel (← number_object.getKey "max"))
        pure (some (s2 ++ ")"))
      else pure none
    else
      pure none

/-- `bounded_int_unary_operator` helper (main.py lines 175-219).  The
source calls `value_object.get` before testing `isinstance(value_object,
int)`, so a bare integer raises AttributeError before the direct
constructor branch can run. -/
def bounded_int_unary_operator (fuel : Nat) (value_object : Json) : PyRes String := do
  let min_value ← value_object.pyGet "min"
  let max_value ← value_object.pyGet "max"
  if value_object.pyIsInt then
    pure ("BoundedIntUnaryOperator.create(" ++ pyStr value_object ++ ")")
  else if min_value.pyIsInt && max_value.pyIsInt then
    pure ("BoundedIntUnaryOperator.create(" ++ pyStr min_value ++ ", " ++ pyStr max_value ++ ")")
  else do
    let result := "new BoundedIntUnaryOperator("
    let result ←
      if (← value_object.pyContains "min") then
        concatSome result (← loot_number fuel (← value_object.getKey "min"))
      else pure (result ++ "null")
    let result := result ++ ", "
    let result ←
      if (← value_object.pyContains "max") then
        concatSome result (← loot_number fuel (← value_object.getKey "max"))
      else pure (result ++ "null")
    pure (result ++ ")")

/-- `location_predicate` helper (main.py lines 280-428). -/
def location_predicate (predicate_object : Json) (number_of_tabs : Nat) : PyRes String := do
  let result := "LocationPredicate.Builder.create()"
  -- Position predicate
  let result ←
    if (← predicate_object.pyContains "position") then do
      let position ← predicate_object.getKey "position"
      let result ←
        if (← position.pyContains "x") then do
          let r ← double_range (← position.getKey "x")
          pure (result ++ "\n" ++ tabs (number_of_tabs + 1) ++ ".x(" ++ r ++ ")")
        else pure result
      let result ←
        if (← position.pyContains "y") then do
          let r ← double_range (← position.getKey "y")
          pure (result ++ "\n" ++ tabs (number_of_tabs + 1) ++ ".y(" ++ r ++ ")")
        else pure result
      let result ←
        if (← position.pyContains "z") then do
          let r ← double_range (← position.getKey "z")
          pure (result ++ "\n" ++ tabs (number_of_tabs + 1) ++ ".z(" ++ r ++ ")")
        else pure result
      pure result
    else pure result
  -- Biomes predicate
  let result ←
    if (← predicate_object.pyContains "biomes") then do
      let result := result ++ "\n" ++ tabs (number_of_tabs + 1) ++ ".biome(RegistryEntryList.of("
      let biomes ← predicate_object.getKey "biomes"
      let result ←
        match biomes with
        | .jstr s =>
          pure (result ++ "\n" ++ tabs (number_of_tabs + 2) ++
            "registries.getWrapperOrThrow(RegistryKeys.BIOME).getOrThrow(RegistryKey.of(" ++
            "RegistryKeys.BIOME, Identifier.of(\"" ++ s ++ "\")))")
        | _ => do
          let elems ← biomes.pyIter
          let r ← elems.foldlM (fun acc biome => do
            let piece ← py_add ("\n" ++ tabs (number_of_tabs + 2) ++
              "registries.getWrapperOrThrow(RegistryKeys.BIOME).getOrThrow(RegistryKey.of(" ++
              "RegistryKeys.BIOME, Identifier.of(\"") biome
            pure (acc ++ piece ++ "\"))), ")) result
          pure (strDropRight r 2)
      pure (result ++ "))")
    else pure result
  -- Structure predicate
  let result ←
    if (← predicate_object.pyContains "structures") then do
      let result := result ++ "\n" ++ tabs (number_of_tabs + 1) ++ ".structure(RegistryEntryList.of("
      let structures ← predicate_object.getKey "structures"
      let result ←
        match structures with
        | .jstr _ => do
          -- the source reads the biomes key in this branch (main.py line 338)
          let b ← predicate_object.getKey "biomes"
          let piece ← py_add ("\n" ++ tabs (number_of_tabs + 2) ++
            "registries.getWrapperOrThrow(RegistryKeys.STRUCTURE).getOrThrow(RegistryKey.of(" ++
            "RegistryKeys.STRUCTURE, Identifier.of(\"") b
          pure (result ++ piece ++ "\")))")
        | _ => do
          let elems ← structures.pyIter
          let r ← elems.foldlM (fun acc struct => do
            let piece ← py_add ("\n" ++ tabs (number_of_tabs + 2) ++
              "registries.getWrapperOrThrow(RegistryKeys.STRUCTURE).getOrThrow(RegistryKey.of(" ++
              "RegistryKeys.STRUCTURE, Identifier.of(\"") struct
            pure (acc ++ piece ++ "\"))), ")) result
          pure (strDropRight r 2)
      pure (result ++ "))")
    else pure result
  -- Dimension predicate
  let result ←
    if (← predicate_object.pyContains "dimension") then do
      let piece ← py_add ("\n" ++ tabs (number_of_tabs + 1) ++ ".dimension(RegistryKey.of(" ++
        "RegistryKeys.WORLD, Identifier.of(\"") (← predicate_object.getKey "dimension")
      pure (result ++ piece ++ "\")))")
    else pure result
  -- Light predicate
  let result ←
    if (← predicate_object.pyContains "light") then do
      let light ← predicate_object.getKey "light"
      if (← light.pyContains "light") then do
        let v ← light.getKey "light"
        pure (result ++ "\n" ++ tabs (number_of_tabs + 1) ++
          ".light(LightPredicate.Builder.create().light(NumberRange.IntRange.exactly(" ++
          pyStr v ++ ")))")
      else do
        let mn ← light.getKey "min"
        let mx ← light.getKey "max"
        pure (result ++ "\n" ++ tabs (number_of_tabs + 1) ++
          ".light(LightPredicate.Builder.create().light(NumberRange.IntRange.between(" ++
          pyStr mn ++ ", " ++ pyStr mx ++ ")))")
    else pure result
  -- Smokey predicate
  let result ←
    if (← predicate_object.pyContains "smokey") then do
      let v ← predicate_object.getKey "smokey"
      pure (result ++ "\n" ++ tabs (number_of_tabs + 1) ++ ".smokey(" ++
        (if v.pyTruthy then "true" else "false") ++ ")")
    else pure result
  -- Can see sky predicate
  let result ←
    if (← predicate_object.pyContains "can_see_sky") then do
      let v ← predicate_object.getKey "can_see_sky"
      pure (result ++ "\n" ++ tabs (number_of_tabs + 1) ++ ".canSeeSky(" ++
        (if v.pyTruthy then "true" else "false") ++ ")")
    else pure result
  -- Block predicate
  let result ←
    if (← predicate_object.pyContains "block") then do
      let result := result ++ "\n" ++ tabs (number_of_tabs + 1) ++ ".block(BlockPredicate.Builder.create()"
      let block ← predicate_object.getKey "block"
      if (← block.pyContains "blocks") then do
        let blocks ← block.getKey "blocks"
        if !(str_contains_sub (pyStr blocks) "#") then do
          let piece ← py_add ("\n" ++ tabs (number_of_tabs + 2) ++
            ".blocks(Registries.BLOCK.get(Identifier.of(\"") blocks
          pure (result ++ piece ++ "\"))))")
        else
          pure (result ++ "\n" ++ tabs (number_of_tabs + 2) ++
            ".tag(TagKey.of(RegistryKeys.BLOCK, Identifier.of(\"" ++
            remove_hash (pyStr blocks) ++ "\"))))")
      else pure result
    else pure result
  -- Fluid predicate
  let result ←
    if (← predicate_object.pyContains "fluid") then do
      let result := result ++ "\n" ++ tabs (number_of_tabs + 1) ++ ".fluid(FluidPredicate.Builder.create()"
      let fluid ← predicate_object.getKey "fluid"
      if (← fluid.pyContains "fluids") then do
        let fluids ← fluid.getKey "fluids"
        if !(str_contains_sub (pyStr fluids) "#") then do
          let piece ← py_add ("\n" ++ tabs (number_of_tabs + 2) ++
            ".fluid(Registries.FLUID.get(Identifier.of(\"") fluids
          pure (result ++ piece ++ "\"))))")
        else
          pure (result ++ "\n" ++ tabs (number_of_tabs + 2) ++
            ".tag(Registries.FLUID.getOrCreateEntryList(TagKey.of(RegistryKeys.FLUID, " ++
            "Identifier.of(\"" ++ remove_hash (pyStr fluids) ++ "\")))) ")
      else pure result
    else pure result
  pure result

/-- `item_predicate` helper (main.py lines 659-697). -/
def item_predicate (predicate_object : Json) (number_of_tabs : Nat) : PyRes String := do
  let result := "ItemPredicate.Builder.create()"
  let result ←
    if (← predicate_object.pyContains "items") then do
      let items ← predicate_object.getKey "items"
      if !(str_contains_sub (pyStr items) "#") then
        match items with
        | .jstr _ =>
          pure (result ++ "\n" ++ tabs (number_of_tabs + 1) ++
            ".items(Registries.ITEM.get(Identifier.of(\"" ++ pyStr items ++ "\")))")
        | _ => do
          let result := result ++ "\n" ++ tabs (number_of_tabs + 1) ++ ".items("
          let elems ← items.pyIter
          let r := elems.foldl (fun acc item => acc ++ "\n" ++ tabs (number_of_tabs + 2) ++
            "Registries.ITEM.get(Identifier.of(\"" ++ pyStr item ++ "\")), ") result
          pure (strDropRight r 2 ++ ")")
      else
        pure (result ++ "\n" ++ tabs (number_of_tabs + 1) ++
          ".tag(TagKey.of(RegistryKeys.ITEM, Identifier.of(\"" ++
          remove_hash (pyStr items) ++ "\")))")
    else pure result
  let result ←
    if (← predicate_object.pyContains "count") then do
      let r ← int_range (← predicate_object.getKey "count")
      pure (result ++ "\n" ++ tabs (number_of_tabs + 1) ++ ".count(" ++ r ++ ")")
    else pure result
  pure result

/-- Python `d.items()`: the key/value pairs of a dict, AttributeError on
anything else. -/
def py_items (j : Json) : PyRes (List (String × Json)) :=
  match j with
  | .jobj kvs => .ok kvs
  | _ => .error .attributeError

/-- `entity_predicate` helper (main.py lines 431-656); recursive through
`vehicle` / `passenger` / `targeted_entity`, bounded by `fuel`. -/
def entity_predicate : Nat → Json → Nat → PyRes String
  | 0, _, _ => .error .outOfFuel
  | fuel + 1, predicate_object, number_of_tabs => do
    let result := "EntityPredicate.Builder.create()"
    -- Entity type predicate
    let result ←
      if (← predicate_object.pyContains "type") then do
        let ty ← predicate_object.getKey "type"
        if !(str_contains_sub (pyStr ty) "#") then do
          let piece ← py_add ("\n" ++ tabs (number_of_tabs + 1) ++
            ".type(EntityTypePredicate.create(Registries.ENTITY_TYPE.get(Identifier.of(\"") ty
          pure (result ++ piece ++ "\"))))")
        else
          pure (result ++ "\n" ++ tabs (number_of_tabs + 1) ++
            ".type(EntityTypePredicate.create(TagKey.of(RegistryKeys.ENTITY_TYPE, " ++
            "Identifier.of(\"" ++ remove_hash (pyStr ty) ++ "\")))) ")
      else pure result
    -- Team predicate
    let result ←
      if (← predicate_object.pyContains "team") then do
        let piece ← py_add ("\n" ++ tabs (number_of_tabs + 1) ++ ".team(\"")
          (← predicate_object.getKey "team")
        pure (result ++ piece ++ "\")")
      else pure result
    -- Location predicate
    let result ←
      if (← predicate_object.pyContains "location") then do
        let lp ← location_predicate (← predicate_object.getKey "location") (number_of_tabs + 1)
        pure (result ++ "\n" ++ tabs (number_of_tabs + 1) ++ ".location(" ++ lp ++ ")")
      else pure result
    -- Movement predicate
    let result ←
      if (← predicate_object.pyContains "movement") then do
        let movement ← predicate_object.getKey "movement"
        let result := result ++ "\n" ++ tabs (number_of_tabs + 1) ++ ".movement(new MovementPredicate("
        let x ← double_range_or_any movement "x"
        let y ← double_range_or_any movement "y"
        let z ← double_range_or_any movement "z"
        let speed ← double_range_or_any movement "speed"
        let hs ← double_range_or_any movement "horizontal_speed"
        let vs ← double_range_or_any movement "vertical_speed"
        let fs ← double_range_or_any movement "fall_speed"
        pure (result ++ x ++ ", " ++ y ++ ", " ++ z ++ ", " ++ speed ++ ", " ++ hs ++ ", " ++
          vs ++ ", " ++ fs ++ "))")
      else pure result
    -- Movement affected by predicate
    let result ←
      if (← predicate_object.pyContains "movement_affected_by") then do
        let lp ← location_predicate (← predicate_object.getKey "movement_affected_by")
          (number_of_tabs + 1)
        pure (result ++ "\n" ++ tabs (number_of_tabs + 1) ++ ".movementAffectedBy(" ++ lp ++ ")")
      else pure result
    -- Stepping on predicate
    let result ←
      if (← predicate_object.pyContains "stepping_on") then do
        let lp ← location_predicate (← predicate_object.getKey "stepping_on") (number_of_tabs + 1)
        pure (result ++ "\n" ++ tabs (number_of_tabs + 1) ++ ".steppingOn(" ++ lp ++ ")")
      else pure result
    -- Distance predicate
    let result ←
      if (← predicate_object.pyContains "distance") then do
        let distance ← predicate_object.getKey "distance"
        let result := result ++ "\n" ++ tabs (number_of_tabs + 1) ++ ".distance(new DistancePredicate("
        let x ← double_range_or_any distance "x"
        let y ← double_range_or_any distance "y"
        let z ← double_range_or_any distance "z"
        let hor ← double_range_or_any distance "horizontal"
        let abs2 ← double_range_or_any distance "absolute"
        pure (result ++ x ++ ", " ++ y ++ ", " ++ z ++ ", " ++ hor ++ ", " ++ abs2 ++ "))")
      else pure result
    -- Flags predicate
    let result ←
      if (← predicate_object.pyContains "flags") then do
        let result := result ++ "\n" ++ tabs (number_of_tabs + 1) ++
          ".flags(EntityFlagsPredicate.Builder.create()"
        let flags ← predicate_object.getKey "flags"
        let result ←
          if (← flags.pyContains "is_on_ground") then do
            let v ← flags.getKey "is_on_ground"
            pure (result ++ "\n" ++ tabs (number_of_tabs + 2) ++ ".onGround(" ++
              (if v.pyTruthy then "true" else "false") ++ ")")
          else pure result
        let result ←
          if (← flags.pyContains "is_on_fire") then do
            let v ← flags.getKey "is_on_fire"
            pure (result ++ "\n" ++ tabs (number_of_tabs + 2) ++ ".onFire(" ++
              (if v.pyTruthy then "true" else "false") ++ ")")
          else pure result
        let result ←
          if (← flags.pyContains "is_sneaking") then do
            let v ← flags.getKey "is_sneaking"
            pure (result ++ "\n" ++ tabs (number_of_tabs + 2) ++ ".sneaking(" ++
              (if v.pyTruthy then "true" else "false") ++ ")")
          else pure result
        let result ←
          if (← flags.pyContains "is_sprinting") then do
            let v ← flags.getKey "is_sprinting"
            pure (result ++ "\n" ++ tabs (number_of_tabs + 2) ++ ".sprinting(" ++
              (if v.pyTruthy then "true" else "false") ++ ")")
          else pure result
        let result ←
          if (← flags.pyContains "is_swimming") then do
            let v ← flags.getKey "is_swimming"
            pure (result ++ "\n" ++ tabs (number_of_tabs + 2) ++ ".swimming(" ++
              (if v.pyTruthy then "true" else "false") ++ ")")
          else pure result
        let result ←
          if (← flags.pyContains "is_flying") then do
            let v ← flags.getKey "is_flying"
            pure (result ++ "\n" ++ tabs (number_of_tabs + 2) ++ ".flying(" ++
              (if v.pyTruthy then "true" else "false") ++ ")")
          else pure result
        let result ←
          if (← flags.pyContains "is_baby") then do
            let v ← flags.getKey "is_baby"
            pure (result ++ "\n" ++ tabs (number_of_tabs + 2) ++ ".isBaby(" ++
              (if v.pyTruthy then "true" else "false") ++ ")")
          else pure result
        pure (result ++ ")")
      else pure result
    -- Equipment predicate
    let result ←
      if (← predicate_object.pyContains "equipment") then do
        let result := result ++ "\n" ++ tabs (number_of_tabs + 1) ++
          ".equipment(EntityEquipmentPredicate.Builder.create()"
        let equipment ← predicate_object.getKey "equipment"
        let result ←
          if (← equipment.pyContains "mainhand") then do
            let ip ← item_predicate (← equipment.getKey "mainhand") (number_of_tabs + 2)
            pure (result ++ "\n" ++ tabs (number_of_tabs + 2) ++ ".mainhand(" ++ ip ++ ")")
          else pure result
        let result ←
          if (← equipment.pyContains "offhand") then do
            let ip ← item_predicate (← equipment.getKey "offhand") (number_of_tabs + 2)
            pure (result ++ "\n" ++ tabs (number_of_tabs + 2) ++ ".offhand(" ++ ip ++ ")")
          else pure result
        let result ←
          if (← equipment.pyContains "head") then do
            let ip ← item_predicate (← equipment.getKey "head") (number_of_tabs + 2)
            pure (result ++ "\n" ++ tabs (number_of_tabs + 2) ++ ".head(" ++ ip ++ ")")
          else pure result
        let result ←
          if (← equipment.pyContains "chest") then do
            let ip ← item_predicate (← equipment.getKey "chest") (number_of_tabs + 2)
            pure (result ++ "\n" ++ tabs (number_of_tabs + 2) ++ ".chest(" ++ ip ++ ")")
          else pure result
        let result ←
          if (← equipment.pyContains "legs") then do
            let ip ← item_predicate (← equipment.getKey "legs") (number_of_tabs + 2)
            pure (result ++ "\n" ++ tabs (number_of_tabs + 2) ++ ".legs(" ++ ip ++ ")")
          else pure result
        let result ←
          if (← equipment.pyContains "feet") then do
            let ip ← item_predicate (← equipment.getKey "feet") (number_of_tabs + 2)
            pure (result ++ "\n" ++ tabs (number_of_tabs + 2) ++ ".feet(" ++ ip ++ ")")
          else pure result
        let result ←
          if (← equipment.pyContains "body") then do
            let ip ← item_predicate (← equipment.getKey "body") (number_of_tabs + 2)
            pure (result ++ "\n" ++ tabs (number_of_tabs + 2) ++ ".body(" ++ ip ++ ")")
          else pure result
        pure (result ++ ")")
      else pure result
    -- Periodic tick predicate
    let result ←
      if (← predicate_object.pyContains "periodic_tick") then do
        let v ← predicate_object.getKey "periodic_tick"
        pure (result ++ "\n" ++ tabs (number_of_tabs + 1) ++ ".periodicTick(" ++ pyStr v ++ ")")
      else pure result
    -- Vehicle predicate
    let result ←
      if (← predicate_object.pyContains "vehicle") then do
        let ep ← entity_predicate fuel (← predicate_object.getKey "vehicle") (number_of_tabs + 1)
        pure (result ++ "\n" ++ tabs (number_of_tabs + 1) ++ ".vehicle(" ++ ep ++ ")")
      else pure result
    -- Passenger predicate
    let result ←
      if (← predicate_object.pyContains "passenger") then do
        let ep ← entity_predicate fuel (← predicate_object.getKey "passenger") (number_of_tabs + 1)
        pure (result ++ "\n" ++ tabs (number_of_tabs + 1) ++ ".passenger(" ++ ep ++ ")")
      else pure result
    -- Targeted entity predicate
    let result ←
      if (← predicate_object.pyContains "targeted_entity") then do
        let ep ← entity_predicate fuel (← predicate_object.getKey "targeted_entity")
          (number_of_tabs + 1)
        pure (result ++ "\n" ++ tabs (number_of_tabs + 1) ++ ".targetedEntity(" ++ ep ++ ")")
      else pure result
    -- Effects predicate
    let result ←
      if (← predicate_object.pyContains "effects") then do
        let effects ← predicate_object.getKey "effects"
        let result := result ++ "\n" ++ tabs (number_of_tabs + 1) ++
          ".effects(EntityEffectPredicate.Builder.create()"
        let pairs ← py_items effects
        let result ← pairs.foldlM (fun acc pair => do
          let acc := acc ++ "\n" ++ tabs (number_of_tabs + 2) ++
            ".addEffect(registries.getWrapperOrThrow(RegistryKeys.STATUS_EFFECT).getOrThrow(" ++
            "RegistryKey.of(RegistryKeys.STATUS_EFFECT, Identifier.of(\"" ++ pair.1 ++
            "\"))), \n" ++ tabs (number_of_tabs + 3) ++ "new EntityEffectPredicate.EffectData("
          let effect_data := pair.2
          let amp ← int_range_or_any effect_data "amplifier"
          let dur ← int_range_or_any effect_data "duration"
          let acc := acc ++ amp ++ ", " ++ dur ++ ", "
          let acc ←
            if (← effect_data.pyContains "ambient") then do
              let v ← effect_data.getKey "ambient"
              pure (acc ++ (if v.pyTruthy then "Optional.of(true)" else "Optional.of(false)") ++ ", ")
            else pure (acc ++ "Optional.empty(), ")
          let acc ←
            if (← effect_data.pyContains "visible") then do
              let v ← effect_data.getKey "visible"
              pure (acc ++ (if v.pyTruthy then "Optional.of(true)" else "Optional.of(false)"))
            else pure (acc ++ "Optional.empty()")
          pure (acc ++ "))")) result
        pure (result ++ ")")
      else pure result
    pure result

/-- `damage_source_predicate` helper (main.py lines 700-730). -/
def damage_source_predicate (fuel : Nat) (predicate_object : Json) (number_of_tabs : Nat) :
    PyRes String := do
  let result := "DamageSourcePredicate.Builder.create()"
  let result ←
    if (← predicate_object.pyContains "tags") then do
      let ts ← (← predicate_object.getKey "tags").pyIter
      ts.foldlM (fun acc tag => do
        let expected ← tag.getKey "expected"
        let piece ← py_add ("\n" ++ tabs (number_of_tabs + 1) ++ ".tag(TagPredicate." ++
          (if expected.pyTruthy then "expected" else "unexpected") ++
          "(TagKey.of(RegistryKeys.DAMAGE_TYPE, Identifier.of(\"") (← tag.getKey "id")
        pure (acc ++ piece ++ "\"))))")) result
    else pure result
  let result ←
    if (← predicate_object.pyContains "source_entity") then do
      let ep ← entity_predicate fuel (← predicate_object.getKey "source_entity")
        (number_of_tabs + 1)
      pure (result ++ "\n" ++ tabs (number_of_tabs + 1) ++ ".sourceEntity(" ++ ep ++ ")")
    else pure result
  let result ←
    if (← predicate_object.pyContains "direct_entity") then do
      let ep ← entity_predicate fuel (← predicate_object.getKey "direct_entity")
        (number_of_tabs + 1)
      pure (result ++ "\n" ++ tabs (number_of_tabs + 1) ++ ".directEntity(" ++ ep ++ ")")
    else pure result
  let result ←
    if (← predicate_object.pyContains "is_direct") then do
      let v ← predicate_object.getKey "is_direct"
      pure (result ++ "\n" ++ tabs (number_of_tabs + 1) ++ ".isDirect(" ++
        (if v.pyTruthy then "true" else "false") ++ ")")
    else pure result
  pure result

/-- The shared term loop of the AnyOf/AllOf branches (main.py lines
936-938 and 949-951), parameterised by the translator used for each
term (the enclosing `loot_condition` at the current recursion budget). -/
def cond_loop (f : Json → Nat → PyRes (Option String)) (number_of_tabs : Nat) :
    List Json → String → PyRes String
  | [], acc => .ok acc
  | term :: rest, acc => do
    let s ← concatSome ("\n" ++ tabs (number_of_tabs + 1)) (← f term (number_of_tabs + 1))
    cond_loop f number_of_tabs rest (acc ++ s ++ ", ")

/-- `loot_condition` helper (main.py lines 738-955).  Falls off its end
(returning `None`) on an unknown condition tag; recursion through
`inverted` and the AnyOf/AllOf term loop is bounded by `fuel`. -/
def loot_condition : Nat → Json → Nat → PyRes (Option String)
  | 0, _, _ => .error .outOfFuel
  | fuel + 1, condition_object, number_of_tabs => do
    let condition_type ← condition_object.getKey "condition"
    -- Weather check
    if condition_type.eqStr "minecraft:weather_check" then do
      let result := "WeatherCheckLootCondition.create()"
      let result ←
        if (← condition_object.pyContains "thundering") then do
          let v ← condition_object.getKey "thundering"
          pure (result ++ ".thundering(" ++ (if v.pyTruthy then "true" else "false") ++ ")")
        else pure result
      let result ←
        if (← condition_object.pyContains "raining") then do
          let v ← condition_object.getKey "raining"
          pure (result ++ ".raining(" ++ (if v.pyTruthy then "true" else "false") ++ ")")
        else pure result
      pure (some result)
    -- Value check
    else if condition_type.eqStr "minecraft:value_check" then do
      let s ← concatSome ("ValueCheckLootCondition.builder(" ++ "\n" ++ tabs (number_of_tabs + 1))
        (← loot_number fuel (← condition_object.getKey "value"))
      let b ← bounded_int_unary_operator fuel (← condition_object.getKey "range")
      pure (some (s ++ ", " ++ "\n" ++ tabs (number_of_tabs + 1) ++ b ++ ")"))
    -- Time check
    else if condition_type.eqStr "minecraft:time_check" then do
      let b ← bounded_int_unary_operator fuel (← condition_object.getKey "value")
      let result := "TimeCheckLootCondition.create(\n" ++ tabs (number_of_tabs + 1) ++ b ++ ")"
      let result ←
        if (← condition_object.pyContains "period") then do
          let v ← condition_object.getKey "period"
          pure (result ++ "\n" ++ tabs (number_of_tabs + 2) ++ ".period(" ++ pyStr v ++ ")")
        else pure result
      pure (some result)
    -- Table bonus
    else if condition_type.eqStr "minecraft:table_bonus" then do
      let piece ← py_add ("TableBonusLootCondition.builder(\n" ++ tabs (number_of_tabs + 1) ++
        "registries.getWrapperOrThrow(RegistryKeys.ENCHANTMENT).getOrThrow(RegistryKey.of(" ++
        "RegistryKeys.ENCHANTMENT, Identifier.of(\"") (← condition_object.getKey "enchantment")
      let result := piece ++ "\"))"
      let chances ← (← condition_object.getKey "chances").pyIter
      let result := chances.foldl (fun acc chance => acc ++ ", " ++ pyStr chance) result
      pure (some (result ++ "))"))
    -- Survives explosion
    else if condition_type.eqStr "minecraft:survives_explosion" then
      pure (some "SurvivesExplosionLootCondition.builder()")
    -- Reference
    else if condition_type.eqStr "minecraft:reference" then do
      let piece ← py_add ("ReferenceLootCondition.builder(RegistryKey.of(RegistryKeys.PREDICATE, " ++
        "Identifier.of(\"") (← condition_object.getKey "name")
      pure (some (piece ++ "\")))"))
    -- Random chance with enchanted bonus
    else if condition_type.eqStr "minecraft:random_chance_with_enchanted_bonus" then do
      let uc ← condition_object.getKey "unenchanted_chance"
      let ev ← enchantment_level_value fuel (← condition_object.getKey "enchanted_chance")
      -- the source wraps this helper call in `str`, so a fallen-through
      -- helper renders as the text None instead of raising
      let evs := match ev with | some s => s | none => "None"
      let piece ← py_add ("new RandomChanceWithEnchantedBonusLootCondition(" ++ "\n" ++
        tabs (number_of_tabs + 1) ++ pyStr uc ++ "F, " ++ evs ++ ", \n" ++
        tabs (number_of_tabs + 1) ++
        "registries.getWrapperOrThrow(RegistryKeys.ENCHANTMENT).getOrThrow(RegistryKey.of(" ++
        "RegistryKeys.ENCHANTMENT, Identifier.of(\"") (← condition_object.getKey "enchantment")
      pure (some (piece ++ "\"))))"))
    -- Random chance
    else if condition_type.eqStr "minecraft:random_chance" then do
      let s ← concatSome "RandomChanceLootCondition.builder("
        (← loot_number fuel (← condition_object.getKey "chance"))
      pure (some (s ++ ")"))
    -- Match tool
    else if condition_type.eqStr "minecraft:match_tool" then do
      let ip ← item_predicate (← condition_object.getKey "predicate") (number_of_tabs + 1)
      pure (some ("MatchToolLootCondition.builder(\n" ++ tabs (number_of_tabs + 1) ++ ip ++ ")"))
    -- Location check
    else if condition_type.eqStr "minecraft:location_check" then do
      let lp ← location_predicate (← condition_object.getKey "predicate") (number_of_tabs + 1)
      let result := "LocationCheckLootCondition.builder(\n" ++ tabs (number_of_tabs + 1) ++ lp
      -- Block offset
      let result ←
        if (← condition_object.pyContains "offsetX") || (← condition_object.pyContains "offsetY")
            || (← condition_object.pyContains "offsetZ") then do
          let result := result ++ "\n" ++ tabs (number_of_tabs + 1) ++ ", new BlockPos("
          let result ←
            if (← condition_object.pyContains "offsetX") then do
              let v ← condition_object.getKey "offsetX"
              pure (result ++ pyStr v ++ ", ")
            else pure (result ++ "0, ")
          let result ←
            if (← condition_object.pyContains "offsetY") then do
              let v ← condition_object.getKey "offsetY"
              pure (result ++ pyStr v ++ ", ")
            else pure (result ++ "0, ")
          let result ←
            if (← condition_object.pyContains "offsetZ") then do
              let v ← condition_object.getKey "offsetZ"
              pure (result ++ pyStr v ++ ")")
            else pure (result ++ "0)")
          pure result
        else pure result
      pure (some (result ++ ")"))
    -- Killed by player
    else if condition_type.eqStr "minecraft:killed_by_player" then do
      let result := "KilledByPlayerLootCondition.builder()"
      let result ←
        if (← condition_object.pyContains "inverse") then do
          let v ← condition_object.getKey "inverse"
          if v.pyTruthy then pure (result ++ ".invert()") else pure result
        else pure result
      pure (some result)
    -- Inverted
    else if condition_type.eqStr "minecraft:inverted" then do
      let s ← concatSome ("InvertedLootCondition.builder(\n" ++ tabs (number_of_tabs + 1))
        (← loot_condition fuel (← condition_object.getKey "term") (number_of_tabs + 1))
      pure (some (s ++ ")"))
    -- Entity properties (the entity-scores branch of the source is
    -- commented out and therefore falls through to the end)
    else if condition_type.eqStr "minecraft:entity_properties" then do
      let ent ← condition_object.getKey "entity"
      let ep ← entity_predicate fuel (← condition_object.getKey "predicate") (number_of_tabs + 1)
      pure (some ("EntityPropertiesLootCondition.builder(\n" ++ tabs (number_of_tabs + 1) ++
        "LootContext.EntityTarget." ++ py_upper (pyStr ent) ++ ", \n" ++
        tabs (number_of_tabs + 1) ++ ep ++ ")"))
    -- Enchantment active check
    else if condition_type.eqStr "minecraft:enchantment_active_check" then do
      let v ← condition_object.getKey "active"
      if v.pyTruthy then
        pure (some "EnchantmentActiveCheckLootCondition.requireActive()")
      else
        pure (some "EnchantmentActiveCheckLootCondition.requireInactive()")
    -- Damage source properties
    else if condition_type.eqStr "minecraft:damage_source_properties" then do
      let dp ← damage_source_predicate fuel (← condition_object.getKey "predicate")
        (number_of_tabs + 1)
      pure (some ("DamageSourcePropertiesLootCondition.builder(\n" ++
        tabs (number_of_tabs + 1) ++ dp ++ ")"))
    -- Any of
    else if condition_type.eqStr "minecraft:any_of" then do
      let terms ← (← condition_object.getKey "terms").pyIter
      let r ← cond_loop (loot_condition fuel) number_of_tabs terms "AnyOfLootCondition.builder("
      pure (some (strDropRight r 2 ++ ")"))
    -- All of
    else if condition_type.eqStr "minecraft:all_of" then do
      let terms ← (← condition_object.getKey "terms").pyIter
      let r ← cond_loop (loot_condition fuel) number_of_tabs terms "AllOfLootCondition.builder("
      pure (some (strDropRight r 2 ++ ")"))
    else
      pure none

/-- `loot_function` helper (main.py lines 957-962): prints one blank
line and returns the empty string for every function object. -/
def loot_function (_function_object : Json) : List String × String :=
  ([""], "")

/-- Lines printed for a pool's rolls field (main.py lines 968-972). -/
def pool_rolls_lines (fuel : Nat) (pool : Json) : PyRes (List String) := do
  if (← pool.pyContains "rolls") then do
    let rolls ← pool.getKey "rolls"
    let s ← concatSome "\t\t.rolls(" (← loot_number fuel rolls)
    pure [s ++ ")"]
  else pure []

/-- Lines printed for a pool's bonus_rolls field (main.py lines 975-979). -/
def pool_bonus_rolls_lines (fuel : Nat) (pool : Json) : PyRes (List String) := do
  if (← pool.pyContains "bonus_rolls") then do
    let rolls ← pool.getKey "bonus_rolls"
    let s ← concatSome "\t\t.bonusRolls(" (← loot_number fuel rolls)
    pure [s ++ ")"]
  else pure []

/-- Lines printed for a pool's conditions list (main.py lines 984-990). -/
def pool_condition_lines (fuel : Nat) (pool : Json) : PyRes (List String) := do
  if (← pool.pyContains "conditions") then do
    let conditions ← (← pool.getKey "conditions").pyIter
    conditions.mapM (fun condition => do
      let s ← concatSome "\t\t.conditionally(" (← loot_condition fuel condition 2)
      pure (s ++ ")"))
  else pure []

/-- Lines printed for a pool's functions list (main.py lines 993-999):
per function, the blank line printed inside `loot_function` followed by
the `.apply` line built from its empty result. -/
def pool_function_lines (pool : Json) : PyRes (List String) := do
  if (← pool.pyContains "functions") then do
    let functions ← (← pool.getKey "functions").pyIter
    pure ((functions.map (fun function =>
      (loot_function function).1 ++ ["\t\t.apply(" ++ (loot_function function).2 ++ ")"])).flatten)
  else pure []

/-- The closing line printed by `build_pool` (main.py lines 1001-1007):
an add-pool statement under MODIFY, a return-replaced-pool statement
under REPLACE, nothing otherwise. -/
def pool_end_lines (event : Nat) : List String :=
  if event == 0 then ["\ttableBuilder.pool(lootPool);\n"]
  else if event == 1 then ["\treturn mergePools(original, lootPool.build());\n"]
  else []

/-- `build_pool` (main.py lines 32-1007): the lines printed for one pool. -/
def build_pool (fuel : Nat) (pool : Json) (event : Nat) : PyRes (List String) := do
  let rollsLines ← pool_rolls_lines fuel pool
  let bonusLines ← pool_bonus_rolls_lines fuel pool
  let condLines ← pool_condition_lines fuel pool
  let funcLines ← pool_function_lines pool
  pure (("\tLootPool.Builder lootPool = LootPool.builder()" ::
    (rollsLines ++ bonusLines ++ condLines ++ funcLines)) ++ pool_end_lines event)

/-- The MODIFY loop over the pools array (main.py lines 1021-1024), kept
per pool so that each pool's block of lines stays visible. -/
def map_build_pool (fuel event : Nat) : List Json → PyRes (List (List String))
  | [] => .ok []
  | p :: ps => do
    let out ← build_pool fuel p event
    let rest ← map_build_pool fuel event ps
    pure (out :: rest)

/-- The guard line printed before any pool (main.py line 1018). -/
def opening_line (path : String) : String :=
  "if (key == RegistryKey.of(RegistryKeys.LOOT_TABLE, Identifier.of(\"" ++ path ++ "\"))) \x7b\n"

/-- `loot_table_json_to_java` (main.py lines 6-1032), modelled from the
decoded table object onward: the list of printed lines.  MODIFY (event 0)
builds every pool, REPLACE (event 1) builds only `pools[0]`. -/
def loot_table_json_to_java (fuel : Nat) (table : Json) (path : String) (event : Nat) :
    PyRes (List String) := do
  let poolLines ←
    if event == 0 then do
      let pools ← (← table.getKey "pools").pyIter
      let outs ← map_build_pool fuel event pools
      pure outs.flatten
    else if event == 1 then do
      let pools ← table.getKey "pools"
      let first ←
        match pools with
        | .jarr (p :: _) => .ok p
        | .jarr [] => .error .indexError
        | _ => .error .typeError
      build_pool fuel first event
    else pure []
  pure (opening_line path :: poolLines ++ ["\x7d"])

/-- Per-axis rendering of the block-offset argument (main.py lines
841-863): the field value through `str` when present, otherwise 0. -/
def offset_axis : Option Json → String
  | some v => pyStr v
  | none => "0"

/-- Term-wise compilation of a combinator's term list, for stating
properties of the AnyOf/AllOf loop. -/
def compile_terms (fuel number_of_tabs : Nat) : List Json → PyRes (List (Option String))
  | [] => .ok []
  | t :: ts => do
    let o ← loot_condition fuel t (number_of_tabs + 1)
    let rest ← compile_terms fuel number_of_tabs ts
    pure (o :: rest)

theorem pyres_bind_ok {α β : Type} (a : α) (f : α → PyRes β) :
    (Except.ok a : PyRes α) >>= f = f a := rfl

theorem pyres_bind_error {α β : Type} (e : PyErr) (f : α → PyRes β) :
    (Except.error e : PyRes α) >>= f = Except.error e := rfl

theorem pyres_pure {α : Type} (a : α) : (pure a : PyRes α) = Except.ok a := rfl

theorem strDropRight_comma_space (Y : String) : strDropRight (Y ++ ", ") 2 = Y := by
  unfold strDropRight
  have h : (Y ++ ", ").data = Y.data ++ [',', ' '] := by simp
  rw [h, List.length_append]
  have h2 : Y.data.length + ([',', ' '] : List Char).length - 2 = Y.data.length := by simp
  rw [h2, List.take_left]

theorem str_join_commas (xs : List String) (h : xs ≠ []) :
    str_join (xs.map (fun x => x ++ ", ")) = str_join_sep ", " xs ++ ", " := by
  induction xs with
  | nil => cases h rfl
  | cons x rest ih =>
    cases rest with
    | nil => simp [str_join, str_join_sep]
    | cons y r =>
      have hr := ih (by simp)
      simp only [List.map_cons, str_join, str_join_sep] at *
      rw [hr]
      simp [String.append_assoc]

theorem getKey_ok_jobj {c : Json} {k : String} {v : Json} (h : c.getKey k = .ok v) :
    ∃ kvs, c = .jobj kvs ∧ assoc_find k kvs = some v := by
  cases c with
  | jobj kvs =>
    refine ⟨kvs, rfl, ?_⟩
    simp only [Json.getKey] at h
    cases hf : assoc_find k kvs with
    | none => rw [hf] at h; exact Except.noConfusion h
    | some w => rw [hf] at h; simp_all
  | jnull => exact Except.noConfusion h
  | jbool b => exact Except.noConfusion h
  | jint n => exact Except.noConfusion h
  | jfloat t => exact Except.noConfusion h
  | jstr s => exact Except.noConfusion h
  | jarr es => exact Except.noConfusion h

theorem compile_terms_length (fuel number_of_tabs : Nat) :
    ∀ (ts : List Json) (os : List (Option String)),
    compile_terms fuel number_of_tabs ts = .ok os → os.length = ts.length := by
  intro ts
  induction ts with
  | nil => intro os h; simp [compile_terms] at h; subst h; rfl
  | cons t rest ih =>
    intro os h
    simp only [compile_terms] at h
    cases h1 : loot_condition fuel t (number_of_tabs + 1) with
    | error e => rw [h1] at h; exact Except.noConfusion h
    | ok o =>
      rw [h1, pyres_bind_ok] at h
      cases h2 : compile_terms fuel number_of_tabs rest with
      | error e => rw [h2] at h; exact Except.noConfusion h
      | ok os2 =>
        rw [h2, pyres_bind_ok] at h
        simp only [pyres_pure] at h
        cases h
        simpa using ih os2 h2

theorem cond_loop_ok (fuel number_of_tabs : Nat) :
    ∀ (ts : List Json) (es : List String) (acc : String),
    compile_terms fuel number_of_tabs ts = .ok (es.map Option.some) →
    cond_loop (loot_condition fuel) number_of_tabs ts acc =
      .ok (acc ++ str_join (es.map (fun s => "\n" ++ tabs (number_of_tabs + 1) ++ s ++ ", "))) := by
  intro ts
  induction ts with
  | nil =>
    intro es acc h
    simp only [compile_terms] at h
    have he : es = [] := by
      cases es with
      | nil => rfl
      | cons e es2 => cases h
    subst he
    simp [cond_loop, str_join]
  | cons t rest ih =>
    intro es acc h
    simp only [compile_terms] at h
    cases h1 : loot_condition fuel t (number_of_tabs + 1) with
    | error e => rw [h1] at h; exact Except.noConfusion h
    | ok o =>
      rw [h1, pyres_bind_ok] at h
      cases h2 : compile_terms fuel number_of_tabs rest with
      | error e => rw [h2] at h; exact Except.noConfusion h
      | ok os2 =>
        rw [h2, pyres_bind_ok] at h
        simp only [pyres_pure] at h
        cases es with
        | nil => cases h
        | cons e es2 =>
          simp only [List.map_cons] at h
          cases h
          simp only [cond_loop, h1, pyres_bind_ok, concatSome, List.map_cons, str_join]
          rw [ih es2 _ h2]
          congr 1
          simp [String.append_assoc]

theorem build_pool_shape (fuel : Nat) (pool : Json) (event : Nat) (out : List String)
    (h : build_pool fuel pool event = .ok out) :
    ∃ mid, out = ("\tLootPool.Builder lootPool = LootPool.builder()" :: mid) ++
      pool_end_lines event := by
  unfold build_pool at h
  cases h1 : pool_rolls_lines fuel pool with
  | error e => rw [h1, pyres_bind_error] at h; exact Except.noConfusion h
  | ok a =>
    rw [h1, pyres_bind_ok] at h
    cases h2 : pool_bonus_rolls_lines fuel pool with
    | error e => rw [h2, pyres_bind_error] at h; exact Except.noConfusion h
    | ok b =>
      rw [h2, pyres_bind_ok] at h
      cases h3 : pool_condition_lines fuel pool with
      | error e => rw [h3, pyres_bind_error] at h; exact Except.noConfusion h
      | ok cnd =>
        rw [h3, pyres_bind_ok] at h
        cases h4 : pool_function_lines pool with
        | error e => rw [h4, pyres_bind_error] at h; exact Except.noConfusion h
        | ok f =>
          rw [h4, pyres_bind_ok, pyres_pure] at h
          cases h
          exact ⟨a ++ b ++ cnd ++ f, by simp⟩

theorem map_build_pool_mem (fuel event : Nat) :
    ∀ (ps : List Json) (outs : List (List String)),
    map_build_pool fuel event ps = .ok outs →
    ∀ o ∈ outs, ∃ q, build_pool fuel q event = .ok o := by
  intro ps
  induction ps with
  | nil =>
    intro outs h o ho
    simp only [map_build_pool] at h
    cases h
    cases ho
  | cons p rest ih =>
    intro outs h o ho
    simp only [map_build_pool] at h
    cases h1 : build_pool fuel p event with
    | error e => rw [h1, pyres_bind_error] at h; exact Except.noConfusion h
    | ok a =>
      rw [h1, pyres_bind_ok] at h
      cases h2 : map_build_pool fuel event rest with
      | error e => rw [h2, pyres_bind_error] at h; exact Except.noConfusion h
      | ok os =>
        rw [h2, pyres_bind_ok, pyres_pure] at h
        cases h
        cases ho with
        | head => exact ⟨p, h1⟩
        | tail _ hmem => exact ih os h2 o hmem

theorem build_pool_modify_last (fuel : Nat) (pool : Json) (out : List String)
    (h : build_pool fuel pool 0 = .ok out) :
    out.getLast? = some "\ttableBuilder.pool(lootPool);\n" := by
  obtain ⟨mid, rfl⟩ := build_pool_shape fuel pool 0 out h
  show (("\tLootPool.Builder lootPool = LootPool.builder()" :: mid) ++
    ["\ttableBuilder.pool(lootPool);\n"]).getLast? = _
  rw [List.getLast?_append_cons]
  rfl

theorem build_pool_replace_last (fuel : Nat) (pool : Json) (out : List String)
    (h : build_pool fuel pool 1 = .ok out) :
    out.getLast? = some "\treturn mergePools(original, lootPool.build());\n" := by
  obtain ⟨mid, rfl⟩ := build_pool_shape fuel pool 1 out h
  show (("\tLootPool.Builder lootPool = LootPool.builder()" :: mid) ++
    ["\treturn mergePools(original, lootPool.build());\n"]).getLast? = _
  rw [List.getLast?_append_cons]
  rfl

/-- Claim C2: compiling the number-provider object with `min`/`max` and
no discriminator yields exactly the same expression as compiling the
explicit `minecraft:uniform` form with the same operand nodes. -/
theorem c2_uniform_sugar_equiv (fuel : Nat) (mn mx : Json) :
    loot_number fuel (.jobj [("min", mn), ("max", mx)]) =
    loot_number fuel (.jobj [("type", .jstr "minecraft:uniform"), ("min", mn), ("max", mx)]) := by
  cases fuel with
  | zero => rfl
  | succ f => rfl

/-- Claim C3 (code bug): the translator for BoundedIntRange is not
defined on a bare integer input; it raises AttributeError from the
`value_object.get` call before the direct-constructor branch is
reachable, for every recursion budget. -/
theorem c3_bounded_int_bare_integer (fuel : Nat) :
    bounded_int_unary_operator fuel (.jint 5) = .error .attributeError := rfl

/-- Claim C4 (code bug): compiling the constant number provider with the
numeric value 5 raises TypeError (the source concatenates the raw value
into a string without `str`), in both the NumberProvider and the
EnchantmentLevelValue translators, instead of being total. -/
theorem c4_constant_provider_type_error (fuel : Nat) :
    loot_number (fuel + 1) (.jobj [("type", .jstr "minecraft:constant"), ("value", .jint 5)]) =
      .error .typeError ∧
    enchantment_level_value (fuel + 1)
        (.jobj [("type", .jstr "minecraft:constant"), ("value", .jint 5)]) =
      .error .typeError :=
  ⟨rfl, rfl⟩

/-- Claim C1: under merge mode (event 0) the emitter assembles every
pool of the decoded table's pools array in document order, each pool's
block of lines ending with the add-pool statement, while under replace
mode (event 1) it assembles only the table's first pool and ends it with
the return-replaced-pool statement, the remaining pools of the array
contributing nothing to the output. -/
theorem c1_table_emitter_modes (fuel : Nat) (path : String) (ps rest : List Json) (p : Json)
    (outs : List (List String)) (out : List String)
    (hmerge : map_build_pool fuel 0 ps = .ok outs)
    (hrepl : build_pool fuel p 1 = .ok out) :
    loot_table_json_to_java fuel (.jobj [("pools", .jarr ps)]) path 0 =
      .ok (opening_line path :: outs.flatten ++ ["\x7d"]) ∧
    (∀ o ∈ outs, o.getLast? = some "\ttableBuilder.pool(lootPool);\n") ∧
    loot_table_json_to_java fuel (.jobj [("pools", .jarr (p :: rest))]) path 1 =
      .ok (opening_line path :: out ++ ["\x7d"]) ∧
    out.getLast? = some "\treturn mergePools(original, lootPool.build());\n" := by
  refine ⟨?_, ?_, ?_, ?_⟩
  · unfold loot_table_json_to_java
    simp only [Json.getKey, assoc_find, Json.pyIter, beq_self_eq_true, if_true,
      pyres_bind_ok, pyres_bind_error, pyres_pure, hmerge]
  · intro o ho
    obtain ⟨q, hq⟩ := map_build_pool_mem fuel 0 ps outs hmerge o ho
    exact build_pool_modify_last fuel q o hq
  · unfold loot_table_json_to_java
    simp only [Json.getKey, assoc_find, Json.pyIter, beq_self_eq_true, if_true,
      pyres_bind_ok, pyres_bind_error, pyres_pure, hrepl]
    simp
  · exact build_pool_replace_last fuel p out hrepl

theorem combinator_build (pre : String) (number_of_tabs : Nat) (es : List String)
    (hesne : es ≠ []) :
    strDropRight (pre ++ str_join (es.map (fun s => "\n" ++ tabs (number_of_tabs + 1) ++ s ++
      ", "))) 2 ++ ")" =
    pre ++ str_join_sep ", " (es.map (fun s => "\n" ++ tabs (number_of_tabs + 1) ++ s)) ++ ")" := by
  have h1 : es.map (fun s => "\n" ++ tabs (number_of_tabs + 1) ++ s ++ ", ") =
      (es.map (fun s => "\n" ++ tabs (number_of_tabs + 1) ++ s)).map (fun x => x ++ ", ") := by
    rw [List.map_map]
    rfl
  have h2 : es.map (fun s => "\n" ++ tabs (number_of_tabs + 1) ++ s) ≠ [] := by
    cases es with
    | nil => exact absurd rfl hesne
    | cons a l => simp
  rw [h1, str_join_commas _ h2, ← String.append_assoc, strDropRight_comma_space]

/-- Claim C5: for an AnyOf or AllOf condition with a non-empty term list
whose terms each compile to an expression, the emitted expression is the
corresponding builder wrapper holding exactly one compiled
sub-expression per term, in input order, and the number of
sub-expressions equals the length of the terms list. -/
theorem c5_combinator_terms (fuel number_of_tabs : Nat) (ts : List Json) (es : List String)
    (hne : ts ≠ [])
    (hok : compile_terms fuel number_of_tabs ts = .ok (es.map Option.some)) :
    loot_condition (fuel + 1)
        (.jobj [("condition", .jstr "minecraft:any_of"), ("terms", .jarr ts)]) number_of_tabs =
      .ok (some ("AnyOfLootCondition.builder(" ++
        str_join_sep ", " (es.map (fun s => "\n" ++ tabs (number_of_tabs + 1) ++ s)) ++ ")")) ∧
    loot_condition (fuel + 1)
        (.jobj [("condition", .jstr "minecraft:all_of"), ("terms", .jarr ts)]) number_of_tabs =
      .ok (some ("AllOfLootCondition.builder(" ++
        str_join_sep ", " (es.map (fun s => "\n" ++ tabs (number_of_tabs + 1) ++ s)) ++ ")")) ∧
    es.length = ts.length := by
  have hlen : es.length = ts.length := by
    have h := compile_terms_length fuel number_of_tabs ts (es.map Option.some) hok
    simpa using h
  have hesne : es ≠ [] := by
    intro h
    subst h
    simp only [List.length_nil] at hlen
    exact hne (List.eq_nil_of_length_eq_zero hlen.symm)
  refine ⟨?_, ?_, hlen⟩
  · have keyA : loot_condition (fuel + 1)
        (.jobj [("condition", .jstr "minecraft:any_of"), ("terms", .jarr ts)]) number_of_tabs =
        (cond_loop (loot_condition fuel) number_of_tabs ts "AnyOfLootCondition.builder(" >>=
          fun r => pure (some (strDropRight r 2 ++ ")"))) := rfl
    rw [keyA, cond_loop_ok fuel number_of_tabs ts es _ hok, pyres_bind_ok, pyres_pure,
      combinator_build _ _ _ hesne]
  · have keyB : loot_condition (fuel + 1)
        (.jobj [("condition", .jstr "minecraft:all_of"), ("terms", .jarr ts)]) number_of_tabs =
        (cond_loop (loot_condition fuel) number_of_tabs ts "AllOfLootCondition.builder(" >>=
          fun r => pure (some (strDropRight r 2 ++ ")"))) := rfl
    rw [keyB, cond_loop_ok fuel number_of_tabs ts es _ hok, pyres_bind_ok, pyres_pure,
      combinator_build _ _ _ hesne]

theorem c5_combinator_terms_witness :
    ([Json.jobj [("condition", Json.jstr "minecraft:survives_explosion")]] : List Json) ≠ [] ∧
    compile_terms 1 0 [Json.jobj [("condition", Json.jstr "minecraft:survives_explosion")]] =
      .ok (["SurvivesExplosionLootCondition.builder()"].map Option.some) ∧
    (loot_condition 2 (.jobj [("condition", .jstr "minecraft:any_of"),
        ("terms", .jarr [Json.jobj [("condition", Json.jstr "minecraft:survives_explosion")]])]) 0 =
      .ok (some ("AnyOfLootCondition.builder(" ++
        str_join_sep ", " (["SurvivesExplosionLootCondition.builder()"].map
          (fun s => "\n" ++ tabs 1 ++ s)) ++ ")")) ∧
    loot_condition 2 (.jobj [("condition", .jstr "minecraft:all_of"),
        ("terms", .jarr [Json.jobj [("condition", Json.jstr "minecraft:survives_explosion")]])]) 0 =
      .ok (some ("AllOfLootCondition.builder(" ++
        str_join_sep ", " (["SurvivesExplosionLootCondition.builder()"].map
          (fun s => "\n" ++ tabs 1 ++ s)) ++ ")")) ∧
    (["SurvivesExplosionLootCondition.builder()"] : List String).length =
      ([Json.jobj [("condition", Json.jstr "minecraft:survives_explosion")]] : List Json).length) :=
  ⟨by simp, rfl, c5_combinator_terms 1 0 _ _ (by simp) rfl⟩

theorem pyContains_jobj (kvs : List (String × Json)) (k : String) :
    Json.pyContains (.jobj kvs) k = .ok ((Json.jobj kvs).hasKey k) := rfl

/-- Claim C6: for a LocationCheck condition node, the emitted expression
carries the 3-axis block-offset argument exactly when at least one of
offsetX/offsetY/offsetZ is present, absent axes rendering as the literal
0 and present axes as their input value. -/
theorem c6_location_check_offset (fuel number_of_tabs : Nat) (c p : Json) (lp : String)
    (hc : c.getKey "condition" = .ok (.jstr "minecraft:location_check"))
    (hp : c.getKey "predicate" = .ok p)
    (hlp : location_predicate p (number_of_tabs + 1) = .ok lp) :
    ((c.hasKey "offsetX" || c.hasKey "offsetY" || c.hasKey "offsetZ") = false →
      loot_condition (fuel + 1) c number_of_tabs =
        .ok (some ("LocationCheckLootCondition.builder(\n" ++ tabs (number_of_tabs + 1) ++ lp ++
          ")"))) ∧
    ((c.hasKey "offsetX" || c.hasKey "offsetY" || c.hasKey "offsetZ") = true →
      loot_condition (fuel + 1) c number_of_tabs =
        .ok (some ("LocationCheckLootCondition.builder(\n" ++ tabs (number_of_tabs + 1) ++ lp ++
          "\n" ++ tabs (number_of_tabs + 1) ++ ", new BlockPos(" ++
          offset_axis (c.lookup "offsetX") ++ ", " ++ offset_axis (c.lookup "offsetY") ++ ", " ++
          offset_axis (c.lookup "offsetZ") ++ ")" ++ ")"))) := by
  obtain ⟨kvs, rfl, -⟩ := getKey_ok_jobj hc
  have z1 : ("0" : String) ++ ", " = "0, " := rfl
  have z2 : ("0" : String) ++ ")" = "0)" := rfl
  rcases hX : assoc_find "offsetX" kvs with _ | vx <;>
    rcases hY : assoc_find "offsetY" kvs with _ | vy <;>
      rcases hZ : assoc_find "offsetZ" kvs with _ | vz <;>
        refine ⟨fun hpres => ?_, fun hpres => ?_⟩ <;>
          simp only [Json.hasKey, Json.lookup, hX, hY, hZ, Option.isSome_some,
            Option.isSome_none, Bool.or_self, Bool.or_true, Bool.true_or, Bool.or_false,
            Bool.false_or] at hpres ⊢ <;>
          first
          | exact Bool.noConfusion hpres
          | (simp only [loot_condition, hc, hp, hlp, pyres_bind_ok, pyres_bind_error,
              pyres_pure, Json.eqStr, String.reduceBEq, Bool.false_eq_true, if_false, if_true,
              pyContains_jobj, Json.hasKey, Json.lookup, hX, hY, hZ,
              Option.isSome_some, Option.isSome_none, Bool.or_self, Bool.or_true,
              Bool.true_or, Bool.or_false, Bool.false_or] <;>
             simp only [Json.getKey, hX, hY, hZ, pyres_bind_ok, pyres_bind_error,
               pyres_pure] <;>
             simp [String.append_assoc, z1, z2, offset_axis])

theorem getKey_jobj_some {kvs : List (String × Json)} {k : String} {v : Json}
    (h : assoc_find k kvs = some v) : Json.getKey (.jobj kvs) k = .ok v := by
  simp [Json.getKey, h]

def c6_input : Json :=
  .jobj [("condition", .jstr "minecraft:location_check"), ("predicate", .jobj []),
    ("offsetY", .jint 2)]

theorem c6_location_check_offset_witness :
    c6_input.getKey "condition" = .ok (.jstr "minecraft:location_check") ∧
    c6_input.getKey "predicate" = .ok (.jobj []) ∧
    location_predicate (.jobj []) 1 = .ok "LocationPredicate.Builder.create()" ∧
    (c6_input.hasKey "offsetX" || c6_input.hasKey "offsetY" || c6_input.hasKey "offsetZ") =
      true ∧
    loot_condition 1 c6_input 0 =
      .ok (some ("LocationCheckLootCondition.builder(\n" ++ tabs 1 ++
        "LocationPredicate.Builder.create()" ++ "\n" ++ tabs 1 ++ ", new BlockPos(" ++
        offset_axis (c6_input.lookup "offsetX") ++ ", " ++
        offset_axis (c6_input.lookup "offsetY") ++ ", " ++
        offset_axis (c6_input.lookup "offsetZ") ++ ")" ++ ")")) :=
  ⟨rfl, rfl, rfl, rfl, (c6_location_check_offset 0 0 c6_input (.jobj [])
    "LocationPredicate.Builder.create()" rfl rfl rfl).2 rfl⟩

/-- Claim C10: for a KilledByPlayer condition node, the emitted
expression carries the trailing `.invert()` suffix exactly when the
`inverse` field is present with value true; an input with `inverse`
false compiles to the same expression as one lacking the field. -/
theorem c10_killed_by_player_invert (fuel number_of_tabs : Nat) (c : Json)
    (hc : c.getKey "condition" = .ok (.jstr "minecraft:killed_by_player")) :
    (∀ b : Bool, c.lookup "inverse" = some (.jbool b) →
      loot_condition (fuel + 1) c number_of_tabs =
        .ok (some (if b then "KilledByPlayerLootCondition.builder().invert()"
          else "KilledByPlayerLootCondition.builder()"))) ∧
    (c.lookup "inverse" = none →
      loot_condition (fuel + 1) c number_of_tabs =
        .ok (some "KilledByPlayerLootCondition.builder()")) := by
  obtain ⟨kvs, rfl, -⟩ := getKey_ok_jobj hc
  constructor
  · intro b hb
    simp only [Json.lookup] at hb
    cases b <;>
      simp [loot_condition, hc, pyres_bind_ok, pyres_bind_error, pyres_pure, Json.eqStr,
        pyContains_jobj, Json.hasKey, Json.lookup, hb, getKey_jobj_some hb, Json.pyTruthy]
  · intro hb
    simp only [Json.lookup] at hb
    simp [loot_condition, hc, pyres_bind_ok, pyres_bind_error, pyres_pure, Json.eqStr,
      pyContains_jobj, Json.hasKey, Json.lookup, hb]

theorem c10_killed_by_player_invert_witness :
    (Json.jobj [("condition", Json.jstr "minecraft:killed_by_player"),
      ("inverse", Json.jbool true)]).getKey "condition" =
        .ok (.jstr "minecraft:killed_by_player") ∧
    (Json.jobj [("condition", Json.jstr "minecraft:killed_by_player"),
      ("inverse", Json.jbool true)]).lookup "inverse" = some (.jbool true) ∧
    loot_condition 1 (Json.jobj [("condition", Json.jstr "minecraft:killed_by_player"),
        ("inverse", Json.jbool true)]) 0 =
      .ok (some "KilledByPlayerLootCondition.builder().invert()") :=
  ⟨rfl, rfl, by
    have h := (c10_killed_by_player_invert 0 0
      (Json.jobj [("condition", Json.jstr "minecraft:killed_by_player"),
        ("inverse", Json.jbool true)]) rfl).1 true rfl
    simpa using h⟩

/-- Counterexample to claim C7 as stated: the identifier "a#b" does not
begin with the hash prefix, yet the item translator selects the tag
constructor and strips the interior hash, instead of the direct-id
constructor with the identifier unchanged. -/
theorem c7_hash_tag_counterexample :
    ("a#b" : String).data.head? ≠ some '#' ∧
    item_predicate (.jobj [("items", .jstr "a#b")]) 0 =
      .ok "ItemPredicate.Builder.create()\n\t.tag(TagKey.of(RegistryKeys.ITEM, Identifier.of(\"ab\")))" ∧
    ("ItemPredicate.Builder.create()\n\t.tag(TagKey.of(RegistryKeys.ITEM, Identifier.of(\"ab\")))" : String) ≠
      "ItemPredicate.Builder.create()\n\t.items(Registries.ITEM.get(Identifier.of(\"a#b\")))" :=
  ⟨by decide, rfl, by decide⟩

theorem tabs_one : tabs 1 = "\t" := rfl

theorem tabs_two : tabs 2 = "\t\t" := rfl

/-- Claim C7 (amended): for a string identifier in an item, block,
fluid, or entity-type sub-predicate, the translator selects the tag
constructor with every hash removed exactly when the identifier
contains a hash anywhere (not only as a leading prefix), and otherwise
selects the direct-id constructor with the identifier unchanged. -/
theorem c7_hash_tag_dispatch (fuel : Nat) (s : String) :
    item_predicate (.jobj [("items", .jstr s)]) 0 =
      .ok ("ItemPredicate.Builder.create()" ++
        (if str_contains_sub s "#" then
          "\n" ++ tabs 1 ++ ".tag(TagKey.of(RegistryKeys.ITEM, Identifier.of(\"" ++
            remove_hash s ++ "\")))"
        else
          "\n" ++ tabs 1 ++ ".items(Registries.ITEM.get(Identifier.of(\"" ++ s ++ "\")))")) ∧
    location_predicate (.jobj [("block", .jobj [("blocks", .jstr s)])]) 0 =
      .ok ("LocationPredicate.Builder.create()" ++ "\n" ++ tabs 1 ++
        ".block(BlockPredicate.Builder.create()" ++
        (if str_contains_sub s "#" then
          "\n" ++ tabs 2 ++ ".tag(TagKey.of(RegistryKeys.BLOCK, Identifier.of(\"" ++
            remove_hash s ++ "\"))))"
        else
          "\n" ++ tabs 2 ++ ".blocks(Registries.BLOCK.get(Identifier.of(\"" ++ s ++ "\"))))")) ∧
    location_predicate (.jobj [("fluid", .jobj [("fluids", .jstr s)])]) 0 =
      .ok ("LocationPredicate.Builder.create()" ++ "\n" ++ tabs 1 ++
        ".fluid(FluidPredicate.Builder.create()" ++
        (if str_contains_sub s "#" then
          "\n" ++ tabs 2 ++ ".tag(Registries.FLUID.getOrCreateEntryList(TagKey.of(" ++
            "RegistryKeys.FLUID, Identifier.of(\"" ++ remove_hash s ++ "\")))) "
        else
          "\n" ++ tabs 2 ++ ".fluid(Registries.FLUID.get(Identifier.of(\"" ++ s ++ "\"))))")) ∧
    entity_predicate (fuel + 1) (.jobj [("type", .jstr s)]) 0 =
      .ok ("EntityPredicate.Builder.create()" ++
        (if str_contains_sub s "#" then
          "\n" ++ tabs 1 ++ ".type(EntityTypePredicate.create(TagKey.of(" ++
            "RegistryKeys.ENTITY_TYPE, Identifier.of(\"" ++ remove_hash s ++ "\")))) "
        else
          "\n" ++ tabs 1 ++ ".type(EntityTypePredicate.create(Registries.ENTITY_TYPE.get(" ++
            "Identifier.of(\"" ++ s ++ "\"))))")) := by
  refine ⟨?_, ?_, ?_, ?_⟩
  · have key : item_predicate (.jobj [("items", .jstr s)]) 0 =
        (if !(str_contains_sub s "#") then
          Except.ok ("ItemPredicate.Builder.create()" ++ "\n" ++ tabs 1 ++
            ".items(Registries.ITEM.get(Identifier.of(\"" ++ s ++ "\")))")
        else
          Except.ok ("ItemPredicate.Builder.create()" ++ "\n" ++ tabs 1 ++
            ".tag(TagKey.of(RegistryKeys.ITEM, Identifier.of(\"" ++ remove_hash s ++
            "\")))")) := rfl
    rw [key]
    cases h : str_contains_sub s "#" <;> simp [h, tabs_one, tabs_two, ← String.append_assoc]
  · have key : location_predicate (.jobj [("block", .jobj [("blocks", .jstr s)])]) 0 =
        (if !(str_contains_sub s "#") then
          Except.ok ("LocationPredicate.Builder.create()" ++ "\n" ++ tabs 1 ++
            ".block(BlockPredicate.Builder.create()" ++ "\n" ++ tabs 2 ++
            ".blocks(Registries.BLOCK.get(Identifier.of(\"" ++ s ++ "\"))))")
        else
          Except.ok ("LocationPredicate.Builder.create()" ++ "\n" ++ tabs 1 ++
            ".block(BlockPredicate.Builder.create()" ++ "\n" ++ tabs 2 ++
            ".tag(TagKey.of(RegistryKeys.BLOCK, Identifier.of(\"" ++ remove_hash s ++
            "\"))))")) := rfl
    rw [key]
    cases h : str_contains_sub s "#" <;> simp [h, tabs_one, tabs_two, ← String.append_assoc]
  · have key : location_predicate (.jobj [("fluid", .jobj [("fluids", .jstr s)])]) 0 =
        (if !(str_contains_sub s "#") then
          Except.ok ("LocationPredicate.Builder.create()" ++ "\n" ++ tabs 1 ++
            ".fluid(FluidPredicate.Builder.create()" ++ "\n" ++ tabs 2 ++
            ".fluid(Registries.FLUID.get(Identifier.of(\"" ++ s ++ "\"))))")
        else
          Except.ok ("LocationPredicate.Builder.create()" ++ "\n" ++ tabs 1 ++
            ".fluid(FluidPredicate.Builder.create()" ++ "\n" ++ tabs 2 ++
            ".tag(Registries.FLUID.getOrCreateEntryList(TagKey.of(RegistryKeys.FLUID, " ++
            "Identifier.of(\"" ++ remove_hash s ++ "\")))) ")) := rfl
    rw [key]
    cases h : str_contains_sub s "#" <;> simp [h, tabs_one, tabs_two, ← String.append_assoc]
  · have key : entity_predicate (fuel + 1) (.jobj [("type", .jstr s)]) 0 =
        (if !(str_contains_sub s "#") then
          Except.ok ("EntityPredicate.Builder.create()" ++ "\n" ++ tabs 1 ++
            ".type(EntityTypePredicate.create(Registries.ENTITY_TYPE.get(Identifier.of(\"" ++
            s ++ "\"))))")
        else
          Except.ok ("EntityPredicate.Builder.create()" ++ "\n" ++ tabs 1 ++
            ".type(EntityTypePredicate.create(TagKey.of(RegistryKeys.ENTITY_TYPE, " ++
            "Identifier.of(\"" ++ remove_hash s ++ "\")))) ")) := rfl
    rw [key]
    cases h : str_contains_sub s "#" <;> simp [h, tabs_one, tabs_two, ← String.append_assoc]

/-- Claim C8 (code bug): a location predicate whose structures field is
a single scalar id reads the biomes key while emitting it (main.py line
338), so it raises KeyError when no biomes field is present instead of
resolving the structure id. -/
theorem c8_structures_scalar_reads_biomes :
    location_predicate (.jobj [("structures", .jstr "minecraft:mineshaft")]) 0 =
      .error (.keyError "biomes") := rfl

/-- Claim C9 (code bug): a pool with a functions list does not surface
an explicit not-implemented result; `loot_function` prints a blank line
and returns the empty string, so the assembler emits the builder call
`.apply()` whose argument is the empty string. -/
theorem c9_functions_empty_apply :
    build_pool 1 (.jobj [("functions", .jarr [.jobj []])]) 0 =
      .ok ["\tLootPool.Builder lootPool = LootPool.builder()", "", "\t\t.apply()",
        "\ttableBuilder.pool(lootPool);\n"] ∧
    loot_function (.jobj []) = ([""], "") ∧
    "\t\t.apply()" ∈ ["\tLootPool.Builder lootPool = LootPool.builder()", "", "\t\t.apply()",
      "\ttableBuilder.pool(lootPool);\n"] :=
  ⟨rfl, rfl, by simp⟩

theorem c1_table_emitter_modes_witness :
    map_build_pool 1 0 [Json.jobj []] =
      .ok [["\tLootPool.Builder lootPool = LootPool.builder()",
        "\ttableBuilder.pool(lootPool);\n"]] ∧
    build_pool 1 (Json.jobj []) 1 =
      .ok ["\tLootPool.Builder lootPool = LootPool.builder()",
        "\treturn mergePools(original, lootPool.build());\n"] ∧
    (loot_table_json_to_java 1 (.jobj [("pools", .jarr [Json.jobj []])])
        "gameplay/sniffer_digging" 0 =
      .ok (opening_line "gameplay/sniffer_digging" ::
        [["\tLootPool.Builder lootPool = LootPool.builder()",
          "\ttableBuilder.pool(lootPool);\n"]].flatten ++ ["\x7d"]) ∧
    (∀ o ∈ [["\tLootPool.Builder lootPool = LootPool.builder()",
        "\ttableBuilder.pool(lootPool);\n"]],
      o.getLast? = some "\ttableBuilder.pool(lootPool);\n") ∧
    loot_table_json_to_java 1 (.jobj [("pools", .jarr (Json.jobj [] :: []))])
        "gameplay/sniffer_digging" 1 =
      .ok (opening_line "gameplay/sniffer_digging" ::
        ["\tLootPool.Builder lootPool = LootPool.builder()",
         "\treturn mergePools(original, lootPool.build());\n"] ++ ["\x7d"]) ∧
    (["\tLootPool.Builder lootPool = LootPool.builder()",
      "\treturn mergePools(original, lootPool.build());\n"] : List String).getLast? =
      some "\treturn mergePools(original, lootPool.build());\n") :=
  ⟨rfl, rfl, c1_table_emitter_modes 1 "gameplay/sniffer_digging" [Json.jobj []] []
    (Json.jobj []) _ _ rfl rfl⟩
